import Mathlib

/-!
Shallow embedding of the fake-person generator of this repository
(source file `fake_info.py`, class `FakeInfo`).

Randomness is modelled as an explicit stream of raw natural-number draws:
`randint` and `choice` consume exactly one raw value each, mirroring the
calls to `random.randint` / `random.choice` in the source.  Strings are
modelled as `List Char`; the external name corpus and the town table are
parameters of the generator (they are external collaborators of the core).
-/

namespace FakeInfoModel

/-- A pseudo-random source: an infinite stream of raw draws and a cursor. -/
structure RState where
  stream : Nat → Nat
  idx : Nat

/-- Consume one raw draw from the stream. -/
def next (s : RState) : Nat × RState :=
  (s.stream s.idx, RState.mk s.stream (s.idx + 1))

/-- Model of `random.randint(a, b)`: one raw draw mapped into `[a, b]`
(when `a ≤ b` the result always lies in that interval). -/
def randint (a b : Nat) (s : RState) : Nat × RState :=
  (a + (next s).1 % (b - a + 1), (next s).2)

/-- Model of `random.choice(xs)`: one raw draw picks an index into `xs`
(`d` is a default for the empty list, which the source never passes). -/
def choice {α : Type} (xs : List α) (d : α) (s : RState) : α × RState :=
  (xs.getD ((next s).1 % xs.length) d, (next s).2)

/-- The decimal digit character of `n % 10` (as in Python string formatting). -/
def digitChar (n : Nat) : Char :=
  match n % 10 with
  | 0 => '0'
  | 1 => '1'
  | 2 => '2'
  | 3 => '3'
  | 4 => '4'
  | 5 => '5'
  | 6 => '6'
  | 7 => '7'
  | 8 => '8'
  | _ => '9'

/-- Numeric value of a digit character. -/
def digitVal (c : Char) : Nat := c.toNat - 48

/-- Zero-padded 2-digit decimal rendering, as Python `%d`-style `%02`
fields of `strftime` produce for values below 100. -/
def pad2 (n : Nat) : List Char := [digitChar (n / 10), digitChar n]

/-- Zero-padded 4-digit decimal rendering, as `strftime('%Y')` produces
for years below 10000. -/
def pad4 (n : Nat) : List Char :=
  [digitChar (n / 1000), digitChar (n / 100), digitChar (n / 10), digitChar n]

/-- `date(year, month, day).strftime('%Y-%m-%d')`. -/
def formatDate (y m d : Nat) : List Char :=
  pad4 y ++ '-' :: (pad2 m ++ '-' :: pad2 d)

/-- `datetime.strptime(s, '%Y-%m-%d')`, reading the fixed-width fields of a
well-formed date string (returns `(0, 0, 0)` on any other shape). -/
def parseYMD (s : List Char) : Nat × Nat × Nat :=
  match s with
  | [y1, y2, y3, y4, _, m1, m2, _, d1, d2] =>
      (digitVal y1 * 1000 + digitVal y2 * 100 + digitVal y3 * 10 + digitVal y4,
       digitVal m1 * 10 + digitVal m2,
       digitVal d1 * 10 + digitVal d2)
  | _ => (0, 0, 0)

/-- `FakeInfo.GENDER_FEMININE = "female"`. -/
def GENDER_FEMININE : List Char := ['f', 'e', 'm', 'a', 'l', 'e']

/-- `FakeInfo.GENDER_MASCULINE = "male"`. -/
def GENDER_MASCULINE : List Char := ['m', 'a', 'l', 'e']

/-- `FakeInfo.PHONE_PREFIXES`, verbatim from the source. -/
def PHONE_PREFIXES : List (List Char) :=
  (["2", "30", "31", "40", "41", "42", "50", "51", "52", "53", "60", "61",
    "71", "81", "91", "92", "93", "342", "344", "345", "346", "347", "348",
    "349", "356", "357", "359", "362", "365", "366", "389", "398", "431",
    "441", "462", "466", "468", "472", "474", "476", "478", "485", "486",
    "488", "489", "493", "494", "495", "496", "498", "499", "542", "543",
    "545", "551", "552", "556", "571", "572", "573", "574", "577", "579",
    "584", "586", "587", "589", "597", "598", "627", "629", "641", "649",
    "658", "662", "663", "664", "665", "667", "692", "693", "694", "697",
    "771", "772", "782", "783", "785", "786", "788", "789", "826", "827",
    "829"] : List String).map String.data

/-- One record of the external name corpus (`data/person-names.json`). -/
structure NameRecord where
  firstName : List Char
  lastName : List Char
  gender : List Char

/-- One row of the external `postal_code` table. -/
structure Town where
  postal_code : List Char
  town_name : List Char

/-- The external collaborators and ambient clock the generator reads. -/
structure Env where
  persons : List NameRecord
  towns : List Town
  currentYear : Nat

/-- `FakeInfo._set_full_name_and_gender`: one uniform draw from the corpus. -/
def set_full_name_and_gender (persons : List NameRecord) (s : RState) :
    NameRecord × RState :=
  choice persons (NameRecord.mk [] [] []) s

/-- Days-per-month table of `FakeInfo._set_birth_date` (simplified, no
leap-year logic: February is always 28). -/
def days_for (month : Nat) : Nat :=
  if month ∈ ([1, 3, 5, 7, 8, 10, 12] : List Nat) then 31
  else if month ∈ ([4, 6, 9, 11] : List Nat) then 30
  else 28

/-- `FakeInfo._set_birth_date`: year in `[1900, currentYear]`, month in
`[1, 12]`, day in `[1, days_for month]`, formatted `YYYY-MM-DD`. -/
def set_birth_date (currentYear : Nat) (s : RState) : List Char × RState :=
  let y := randint 1900 currentYear s
  let m := randint 1 12 y.2
  let d := randint 1 (days_for m.1) m.2
  (formatDate y.1 m.1 d.1, d.2)

/-- The parity adjustment of the final CPR digit in `FakeInfo._set_cpr`:
an odd draw for a feminine record, or an even draw for a masculine record,
is incremented by one modulo ten; anything else is left unchanged. -/
def adjustFinal (gender : List Char) (d : Nat) : Nat :=
  if gender = GENDER_FEMININE ∧ d % 2 = 1 then (d + 1) % 10
  else if gender = GENDER_MASCULINE ∧ d % 2 = 0 then (d + 1) % 10
  else d

/-- `n` successive draws of `random.randint(0, 9)` rendered as digit
characters (the `str(random.randint(0, 9))` list comprehensions). -/
def drawDigits : Nat → RState → List Char × RState
  | 0, s => ([], s)
  | n + 1, s =>
    let p := randint 0 9 s
    let q := drawDigits n p.2
    (digitChar p.1 :: q.1, q.2)

/-- `FakeInfo._set_cpr`: re-parse the birth date string, draw the final
digit, parity-adjust it, draw three middle digits, and compose
`dd + mm + yy + middle + final`. -/
def set_cpr (birth_date : List Char) (gender : List Char) (s : RState) :
    List Char × RState :=
  let ymd := parseYMD birth_date
  let dd := pad2 ymd.2.2
  let mm := pad2 ymd.2.1
  let yy := pad2 (ymd.1 % 100)
  let f0 := randint 0 9 s
  let fd := adjustFinal gender f0.1
  let mid := drawDigits 3 f0.2
  (dd ++ mm ++ yy ++ mid.1 ++ [digitChar fd], mid.2)

/-- The base alphabet of `FakeInfo._get_random_text`:
`list(' abcdefghijklmnopqrstuvwxyzABCDEFGHIJKLMNOPQRSTUVWXYZ')`. -/
def VALID_CHARS_LATIN : List Char :=
  [' ', 'a', 'b', 'c', 'd', 'e', 'f', 'g', 'h', 'i', 'j', 'k', 'l', 'm',
   'n', 'o', 'p', 'q', 'r', 's', 't', 'u', 'v', 'w', 'x', 'y', 'z',
   'A', 'B', 'C', 'D', 'E', 'F', 'G', 'H', 'I', 'J', 'K', 'L', 'M',
   'N', 'O', 'P', 'Q', 'R', 'S', 'T', 'U', 'V', 'W', 'X', 'Y', 'Z']

/-- The Danish extension `list('æøåÆØÅ')`. -/
def DANISH_EXTRA : List Char := ['æ', 'ø', 'å', 'Æ', 'Ø', 'Å']

/-- The `valid_chars` list of `FakeInfo._get_random_text`. -/
def valid_chars (includeDanish : Bool) : List Char :=
  VALID_CHARS_LATIN ++ (if includeDanish then DANISH_EXTRA else [])

/-- `n` successive draws of `random.choice(xs)`. -/
def drawChoices (xs : List Char) : Nat → RState → List Char × RState
  | 0, s => ([], s)
  | n + 1, s =>
    let p := choice xs ' ' s
    let q := drawChoices xs n p.2
    (p.1 :: q.1, q.2)

/-- `FakeInfo._get_random_text`: first character from the alphabet with
the space removed, the remaining `length - 1` characters from the full
alphabet. -/
def get_random_text (length : Nat) (includeDanish : Bool) (s : RState) :
    List Char × RState :=
  let vc := valid_chars includeDanish
  let c := choice (vc.filter (fun x => x ≠ ' ')) 'a' s
  let rest := drawChoices vc (length - 1) c.2
  (c.1 :: rest.1, rest.2)

/-- The uppercase letters appended to the street number with probability
2/10 (`'ABCDEFGHIJKLMNOPQRSTUVWXYZ'`). -/
def UPPER_LETTERS : List Char :=
  ['A', 'B', 'C', 'D', 'E', 'F', 'G', 'H', 'I', 'J', 'K', 'L', 'M',
   'N', 'O', 'P', 'Q', 'R', 'S', 'T', 'U', 'V', 'W', 'X', 'Y', 'Z']

/-- The `lower_letters` alphabet of the door generator:
`'abcdefghijklmnopqrstuvwxyzøæå'` (29 letters). -/
def LOWER_LETTERS : List Char :=
  ['a', 'b', 'c', 'd', 'e', 'f', 'g', 'h', 'i', 'j', 'k', 'l', 'm',
   'n', 'o', 'p', 'q', 'r', 's', 't', 'u', 'v', 'w', 'x', 'y', 'z',
   'ø', 'æ', 'å']

/-- `str(n)` for a natural number. -/
def natStr (n : Nat) : List Char := (Nat.repr n).data

/-- The door branch of `FakeInfo._set_address`, applied to the drawn
`door_type`. -/
def mkDoor (door_type : Nat) (s : RState) : List Char × RState :=
  if door_type < 8 then (['t', 'h'], s)
  else if door_type < 15 then (['t', 'v'], s)
  else if door_type < 17 then (['m', 'f'], s)
  else if door_type < 19 then
    let p := randint 1 50 s
    (natStr p.1, p.2)
  else
    let c := choice LOWER_LETTERS 'a' s
    let dash : List Char := if door_type = 20 then ['-'] else []
    let k := randint 1 999 c.2
    (c.1 :: (dash ++ natStr k.1), k.2)

/-- The address dictionary built by `FakeInfo._set_address`. -/
structure Address where
  street : List Char
  number : List Char
  floor : List Char
  door : List Char
  postal_code : List Char
  town_name : List Char

/-- `DB.get_random_town`: a uniform offset into the town table. -/
def get_random_town (towns : List Town) (s : RState) : Town × RState :=
  let off := randint 0 (towns.length - 1) s
  (towns.getD off.1 (Town.mk [] []), off.2)

/-- `FakeInfo._set_address`: street, number (with optional uppercase
suffix), floor (`st` or 1-99), door, and the external town lookup. -/
def set_address (towns : List Town) (s : RState) : Address × RState :=
  let street := get_random_text 40 true s
  let numN := randint 1 999 street.2
  let numP := randint 1 10 numN.2
  let number :=
    if numP.1 < 3 then
      let c := choice UPPER_LETTERS 'A' numP.2
      (natStr numN.1 ++ [c.1], c.2)
    else (natStr numN.1, numP.2)
  let floorP := randint 1 10 number.2
  let floor :=
    if floorP.1 < 4 then ((['s', 't'] : List Char), floorP.2)
    else
      let fn := randint 1 99 floorP.2
      (natStr fn.1, fn.2)
  let doorT := randint 1 20 floor.2
  let door := mkDoor doorT.1 doorT.2
  let town := get_random_town towns door.2
  (Address.mk street.1 number.1 floor.1 door.1
    town.1.postal_code town.1.town_name, town.2)

/-- `FakeInfo._set_phone`: a uniform prefix from `PHONE_PREFIXES` plus
`8 - len(prefix)` random digits. -/
def set_phone (s : RState) : List Char × RState :=
  let p := choice PHONE_PREFIXES [] s
  let suf := drawDigits (8 - p.1.length) p.2
  (p.1 ++ suf.1, suf.2)

/-- The attributes a fully constructed `FakeInfo` instance carries. -/
structure FakeInfo where
  first_name : List Char
  last_name : List Char
  gender : List Char
  birth_date : List Char
  cpr : List Char
  address : Address
  phone_number : List Char

/-- `FakeInfo.__init__`: name/gender, birth date, CPR, address, phone,
in that order. -/
def mkFakeInfo (env : Env) (s : RState) : FakeInfo × RState :=
  let p := set_full_name_and_gender env.persons s
  let bd := set_birth_date env.currentYear p.2
  let cpr := set_cpr bd.1 p.1.gender bd.2
  let addr := set_address env.towns cpr.2
  let ph := set_phone addr.2
  (FakeInfo.mk p.1.firstName p.1.lastName p.1.gender bd.1 cpr.1 addr.1 ph.1,
   ph.2)

/-- A JSON-like value of the returned dictionaries: a string, or a flat
object of string fields (the nested address dictionary). -/
inductive Value where
  | str : List Char → Value
  | obj : List (String × List Char) → Value
deriving DecidableEq

/-- The six key-value pairs of the address dictionary, in insertion
order. -/
def addressPairs (a : Address) : List (String × List Char) :=
  [("street", a.street), ("number", a.number), ("floor", a.floor),
   ("door", a.door), ("postal_code", a.postal_code),
   ("town_name", a.town_name)]

/-- `FakeInfo.get_fake_person`: the seven-key person dictionary. -/
def get_fake_person (fi : FakeInfo) : List (String × Value) :=
  [("CPR", Value.str fi.cpr),
   ("firstName", Value.str fi.first_name),
   ("lastName", Value.str fi.last_name),
   ("gender", Value.str fi.gender),
   ("birthDate", Value.str fi.birth_date),
   ("address", Value.obj (addressPairs fi.address)),
   ("phoneNumber", Value.str fi.phone_number)]

/-- The generation loop of `FakeInfo.get_fake_persons`. -/
def genMany (env : Env) : Nat → RState → List (List (String × Value)) × RState
  | 0, s => ([], s)
  | n + 1, s =>
    let p := mkFakeInfo env s
    let q := genMany env n p.2
    (get_fake_person p.1 :: q.1, q.2)

/-- `FakeInfo.get_fake_persons`: clamp the requested amount into `[2, 100]`
and generate that many persons. -/
def get_fake_persons (env : Env) (amount : Int) (s : RState) :
    List (List (String × Value)) × RState :=
  let amount := if amount < 2 then 2 else amount
  let amount := if amount > 100 then 100 else amount
  genMany env amount.toNat s

/-! ### Basic lemmas about the draw primitives -/

theorem randint_bounds (a b : Nat) (s : RState) (h : a ≤ b) :
    a ≤ (randint a b s).1 ∧ (randint a b s).1 ≤ b := by
  have h2 : (next s).1 % (b - a + 1) < b - a + 1 := Nat.mod_lt _ (by omega)
  show a ≤ a + (next s).1 % (b - a + 1) ∧ a + (next s).1 % (b - a + 1) ≤ b
  omega

theorem choice_mem {α : Type} (xs : List α) (d : α) (s : RState)
    (h : xs ≠ []) : (choice xs d s).1 ∈ xs := by
  have hl : 0 < xs.length := List.length_pos.mpr h
  have hlt : (next s).1 % xs.length < xs.length := Nat.mod_lt _ hl
  show xs.getD ((next s).1 % xs.length) d ∈ xs
  rw [List.getD_eq_getElem?_getD, List.getElem?_eq_getElem hlt]
  exact List.getElem_mem hlt

theorem digitChar_isDigit (n : Nat) : (digitChar n).isDigit = true := by
  unfold digitChar
  have h : n % 10 < 10 := Nat.mod_lt _ (by omega)
  set k := n % 10 with hk
  interval_cases k <;> decide

theorem digitVal_digitChar (n : Nat) : digitVal (digitChar n) = n % 10 := by
  unfold digitChar
  have h : n % 10 < 10 := Nat.mod_lt _ (by omega)
  set k := n % 10 with hk
  interval_cases k <;> decide

theorem pad2_length (n : Nat) : (pad2 n).length = 2 := rfl

theorem pad2_digits (n : Nat) : ∀ c ∈ pad2 n, c.isDigit = true := by
  intro c hc
  simp only [pad2, List.mem_cons, List.mem_singleton, List.not_mem_nil,
    or_false] at hc
  rcases hc with h | h <;> subst h <;> exact digitChar_isDigit _

theorem drawDigits_length (n : Nat) : ∀ s, (drawDigits n s).1.length = n := by
  induction n with
  | zero => intro s; rfl
  | succ n ih => intro s; simp [drawDigits, ih]

theorem drawDigits_digits (n : Nat) :
    ∀ s, ∀ c ∈ (drawDigits n s).1, c.isDigit = true := by
  induction n with
  | zero => intro s c hc; simp [drawDigits] at hc
  | succ n ih =>
    intro s c hc
    simp only [drawDigits, List.mem_cons] at hc
    rcases hc with h | h
    · subst h; exact digitChar_isDigit _
    · exact ih _ c h

theorem drawChoices_length (xs : List Char) (n : Nat) :
    ∀ s, (drawChoices xs n s).1.length = n := by
  induction n with
  | zero => intro s; rfl
  | succ n ih => intro s; simp [drawChoices, ih]

theorem drawChoices_mem (xs : List Char) (hxs : xs ≠ []) (n : Nat) :
    ∀ s, ∀ c ∈ (drawChoices xs n s).1, c ∈ xs := by
  induction n with
  | zero => intro s c hc; simp [drawChoices] at hc
  | succ n ih =>
    intro s c hc
    simp only [drawChoices, List.mem_cons] at hc
    rcases hc with h | h
    · subst h; exact choice_mem xs ' ' s hxs
    · exact ih _ c h

/-! ### Lemmas about the parity adjustment and the day table -/

theorem adjustFinal_lt (g : List Char) (d : Nat) (h : d < 10) :
    adjustFinal g d < 10 := by
  unfold adjustFinal
  split_ifs <;> omega

theorem adjustFinal_cases (g : List Char) (d : Nat) :
    adjustFinal g d = d ∨ adjustFinal g d = (d + 1) % 10 := by
  unfold adjustFinal
  split_ifs <;> simp

theorem adjustFinal_fem (d : Nat) (h : d < 10) :
    adjustFinal GENDER_FEMININE d % 2 = 0 := by
  unfold adjustFinal
  split_ifs with h1 h2
  · have := h1.2; omega
  · exact absurd h2.1 (by decide)
  · have hne : ¬(d % 2 = 1) := fun hd => h1 ⟨rfl, hd⟩
    omega

theorem adjustFinal_masc (d : Nat) (h : d < 10) :
    adjustFinal GENDER_MASCULINE d % 2 = 1 := by
  unfold adjustFinal
  split_ifs with h1 h2
  · exact absurd h1.1 (by decide)
  · have := h2.2; omega
  · have hne : ¬(d % 2 = 0) := fun hd => h2 ⟨rfl, hd⟩
    omega

theorem adjustFinal_other (g : List Char) (d : Nat)
    (hf : g ≠ GENDER_FEMININE) (hm : g ≠ GENDER_MASCULINE) :
    adjustFinal g d = d := by
  unfold adjustFinal
  split_ifs with h1 h2
  · exact absurd h1.1 hf
  · exact absurd h2.1 hm
  · rfl

theorem days_for_pos (m : Nat) : 1 ≤ days_for m := by
  unfold days_for
  split_ifs <;> omega

theorem genMany_length (env : Env) (n : Nat) :
    ∀ s, (genMany env n s).1.length = n := by
  induction n with
  | zero => intro s; rfl
  | succ n ih => intro s; simp [genMany, ih]

/-! ### Shape lemmas for the individual sub-generators -/

theorem set_cpr_spec (bd g : List Char) (s : RState) :
    ∃ raw mid,
      raw < 10 ∧ mid.length = 3 ∧ (∀ c ∈ mid, c.isDigit = true) ∧
      (set_cpr bd g s).1 =
        pad2 (parseYMD bd).2.2 ++ pad2 (parseYMD bd).2.1 ++
          pad2 ((parseYMD bd).1 % 100) ++ mid ++
          [digitChar (adjustFinal g raw)] := by
  refine ⟨(randint 0 9 s).1, (drawDigits 3 (randint 0 9 s).2).1,
    ?_, ?_, ?_, rfl⟩
  · have := (randint_bounds 0 9 s (by omega)).2
    omega
  · exact drawDigits_length 3 _
  · exact drawDigits_digits 3 _

theorem set_birth_date_spec (cy : Nat) (s : RState) (h : 1900 ≤ cy) :
    ∃ y m d,
      1900 ≤ y ∧ y ≤ cy ∧ 1 ≤ m ∧ m ≤ 12 ∧ 1 ≤ d ∧ d ≤ days_for m ∧
      (set_birth_date cy s).1 = formatDate y m d := by
  refine ⟨(randint 1900 cy s).1, (randint 1 12 (randint 1900 cy s).2).1,
    (randint 1 (days_for (randint 1 12 (randint 1900 cy s).2).1)
      (randint 1 12 (randint 1900 cy s).2).2).1,
    (randint_bounds 1900 cy s h).1, (randint_bounds 1900 cy s h).2,
    (randint_bounds 1 12 _ (by omega)).1,
    (randint_bounds 1 12 _ (by omega)).2,
    (randint_bounds 1 _ _ (days_for_pos _)).1,
    (randint_bounds 1 _ _ (days_for_pos _)).2, rfl⟩

theorem phone_prefixes_facts :
    ∀ p ∈ PHONE_PREFIXES,
      1 ≤ p.length ∧ p.length ≤ 3 ∧ ∀ c ∈ p, c.isDigit = true := by
  decide

theorem set_phone_spec (s : RState) :
    ∃ p suf,
      p ∈ PHONE_PREFIXES ∧ suf.length = 8 - p.length ∧
      (∀ c ∈ suf, c.isDigit = true) ∧ (set_phone s).1 = p ++ suf := by
  refine ⟨(choice PHONE_PREFIXES [] s).1,
    (drawDigits (8 - (choice PHONE_PREFIXES [] s).1.length)
      (choice PHONE_PREFIXES [] s).2).1,
    choice_mem _ _ _ (by decide), drawDigits_length _ _,
    drawDigits_digits _ _, rfl⟩

theorem get_random_text_spec (len : Nat) (s : RState) :
    ∃ c rest,
      (get_random_text len true s).1 = c :: rest ∧
      c ∈ (valid_chars true).filter (fun x => x ≠ ' ') ∧ c ≠ ' ' ∧
      rest.length = len - 1 ∧ ∀ x ∈ rest, x ∈ valid_chars true := by
  refine ⟨(choice ((valid_chars true).filter (fun x => x ≠ ' ')) 'a' s).1,
    (drawChoices (valid_chars true) (len - 1)
      (choice ((valid_chars true).filter (fun x => x ≠ ' ')) 'a' s).2).1,
    rfl, ?_, ?_, drawChoices_length _ _ _, drawChoices_mem _ (by decide) _ _⟩
  · exact choice_mem _ _ _ (by decide)
  · have hm := choice_mem ((valid_chars true).filter (fun x => x ≠ ' '))
      'a' s (by decide)
    have h2 := (List.mem_filter.mp hm).2
    exact of_decide_eq_true h2

theorem set_address_street (towns : List Town) (s : RState) :
    ∃ c rest,
      (set_address towns s).1.street = c :: rest ∧
      c ∈ (valid_chars true).filter (fun x => x ≠ ' ') ∧ c ≠ ' ' ∧
      rest.length = 39 ∧ ∀ x ∈ rest, x ∈ valid_chars true := by
  obtain ⟨c, rest, heq, hm, hsp, hlen, hall⟩ := get_random_text_spec 40 s
  exact ⟨c, rest, heq, hm, hsp, hlen, hall⟩

theorem mkDoor_th (dt : Nat) (s : RState) (h : dt < 8) :
    (mkDoor dt s).1 = ['t', 'h'] := by
  unfold mkDoor
  rw [if_pos h]

theorem mkDoor_tv (dt : Nat) (s : RState) (h1 : 8 ≤ dt) (h2 : dt < 15) :
    (mkDoor dt s).1 = ['t', 'v'] := by
  unfold mkDoor
  rw [if_neg (by omega), if_pos h2]

theorem mkDoor_mf (dt : Nat) (s : RState) (h1 : 15 ≤ dt) (h2 : dt < 17) :
    (mkDoor dt s).1 = ['m', 'f'] := by
  unfold mkDoor
  rw [if_neg (by omega), if_neg (by omega), if_pos h2]

theorem mkDoor_num (dt : Nat) (s : RState) (h1 : 17 ≤ dt) (h2 : dt < 19) :
    ∃ k, 1 ≤ k ∧ k ≤ 50 ∧ (mkDoor dt s).1 = natStr k := by
  unfold mkDoor
  rw [if_neg (by omega), if_neg (by omega), if_neg (by omega), if_pos h2]
  exact ⟨(randint 1 50 s).1, (randint_bounds 1 50 s (by omega)).1,
    (randint_bounds 1 50 s (by omega)).2, rfl⟩

theorem mkDoor_letter (dt : Nat) (s : RState) (h : 19 ≤ dt) :
    ∃ c k,
      c ∈ LOWER_LETTERS ∧ 1 ≤ k ∧ k ≤ 999 ∧
      (mkDoor dt s).1 =
        c :: ((if dt = 20 then ['-'] else []) ++ natStr k) := by
  unfold mkDoor
  rw [if_neg (by omega), if_neg (by omega), if_neg (by omega),
    if_neg (by omega)]
  exact ⟨(choice LOWER_LETTERS 'a' s).1,
    (randint 1 999 (choice LOWER_LETTERS 'a' s).2).1,
    choice_mem _ _ _ (by decide),
    (randint_bounds 1 999 _ (by omega)).1,
    (randint_bounds 1 999 _ (by omega)).2, rfl⟩

theorem set_address_door (towns : List Town) (s : RState) :
    ∃ dt s2,
      1 ≤ dt ∧ dt ≤ 20 ∧ (set_address towns s).1.door = (mkDoor dt s2).1 :=
  let street := get_random_text 40 true s
  let numN := randint 1 999 street.2
  let numP := randint 1 10 numN.2
  let number :=
    if numP.1 < 3 then
      let c := choice UPPER_LETTERS 'A' numP.2
      (natStr numN.1 ++ [c.1], c.2)
    else (natStr numN.1, numP.2)
  let floorP := randint 1 10 number.2
  let floorV :=
    if floorP.1 < 4 then ((['s', 't'] : List Char), floorP.2)
    else
      let fn := randint 1 99 floorP.2
      (natStr fn.1, fn.2)
  let doorT := randint 1 20 floorV.2
  ⟨doorT.1, doorT.2, (randint_bounds 1 20 floorV.2 (by omega)).1,
    (randint_bounds 1 20 floorV.2 (by omega)).2, rfl⟩

/-! ### Concrete inputs used by the witness theorems -/

/-- The all-zero draw stream. -/
def s0 : RState := RState.mk (fun _ => 0) 0

/-- A draw stream whose fifth raw draw (the CPR final-digit draw) is 9. -/
def sNine : RState := RState.mk (fun i => if i = 4 then 9 else 0) 0

/-- The stub town table of the determinism test:
a single row `(postalCode "2100", townName "X")`. -/
def STUB_TOWNS : List Town := [Town.mk ['2', '1', '0', '0'] ['X']]

/-- A concrete environment: one feminine corpus entry, the stub town
table, current year 2026. -/
def env0 : Env :=
  Env.mk [NameRecord.mk ['J'] ['D'] GENDER_FEMININE] STUB_TOWNS 2026

/-- A concrete environment whose single corpus entry carries the gender
string "other" (neither "female" nor "male"). -/
def envOther : Env :=
  Env.mk [NameRecord.mk ['J'] ['D'] ['o', 't', 'h', 'e', 'r']] STUB_TOWNS 2026

/-! ### Intermediate generator states (abbreviations of source
compositions, used to instantiate the sub-generator lemmas) -/

/-- The stream state after the name/gender draw. -/
def stateAfterName (env : Env) (s : RState) : RState :=
  (set_full_name_and_gender env.persons s).2

/-- The stream state after the birth-date draws. -/
def stateAfterBD (env : Env) (s : RState) : RState :=
  (set_birth_date env.currentYear (stateAfterName env s)).2

/-- The birth-date string drawn inside `mkFakeInfo`. -/
def bdOf (env : Env) (s : RState) : List Char :=
  (set_birth_date env.currentYear (stateAfterName env s)).1

/-- The gender drawn inside `mkFakeInfo`. -/
def genderOf (env : Env) (s : RState) : List Char :=
  (set_full_name_and_gender env.persons s).1.gender

/-- The stream state after the CPR draws. -/
def stateAfterCpr (env : Env) (s : RState) : RState :=
  (set_cpr (bdOf env s) (genderOf env s) (stateAfterBD env s)).2

/-- The stream state after the address draws. -/
def stateAfterAddr (env : Env) (s : RState) : RState :=
  (set_address env.towns (stateAfterCpr env s)).2

/-! ### Claim-level shape lemmas -/

theorem cpr_shape (bd g : List Char) (s : RState) :
    ∃ y m d mid fd,
      parseYMD bd = (y, m, d) ∧ mid.length = 3 ∧
      (∀ c ∈ mid, c.isDigit = true) ∧ fd < 10 ∧
      (set_cpr bd g s).1 =
        pad2 d ++ pad2 m ++ pad2 (y % 100) ++ mid ++ [digitChar fd] ∧
      (set_cpr bd g s).1.length = 10 ∧
      (∀ c ∈ (set_cpr bd g s).1, c.isDigit = true) := by
  obtain ⟨raw, mid, hraw, hml, hmd, heq⟩ := set_cpr_spec bd g s
  refine ⟨(parseYMD bd).1, (parseYMD bd).2.1, (parseYMD bd).2.2, mid,
    adjustFinal g raw, rfl, hml, hmd, adjustFinal_lt g raw hraw, heq,
    ?_, ?_⟩
  · rw [heq]
    simp [pad2, hml]
  · intro c hc
    rw [heq] at hc
    simp only [List.mem_append, List.mem_singleton] at hc
    rcases hc with ((((h | h) | h) | h) | h)
    · exact pad2_digits _ c h
    · exact pad2_digits _ c h
    · exact pad2_digits _ c h
    · exact hmd c h
    · subst h; exact digitChar_isDigit _

theorem cpr_last (bd g : List Char) (s : RState) :
    ∃ fd, fd < 10 ∧
      (set_cpr bd g s).1.getLast? = some (digitChar fd) ∧
      digitVal (digitChar fd) = fd ∧
      (g = GENDER_FEMININE → fd % 2 = 0) ∧
      (g = GENDER_MASCULINE → fd % 2 = 1) := by
  obtain ⟨raw, mid, hraw, hml, hmd, heq⟩ := set_cpr_spec bd g s
  have hlt := adjustFinal_lt g raw hraw
  refine ⟨adjustFinal g raw, hlt, ?_, ?_, ?_, ?_⟩
  · rw [heq, List.getLast?_concat]
  · rw [digitVal_digitChar]
    exact Nat.mod_eq_of_lt hlt
  · intro hg; subst hg; exact adjustFinal_fem raw hraw
  · intro hg; subst hg; exact adjustFinal_masc raw hraw

theorem phone_shape (s : RState) :
    (set_phone s).1.length = 8 ∧
    (∀ c ∈ (set_phone s).1, c.isDigit = true) ∧
    ∃ p suf,
      p ∈ PHONE_PREFIXES ∧ 1 ≤ p.length ∧ p.length ≤ 3 ∧
      suf.length = 8 - p.length ∧ (∀ c ∈ suf, c.isDigit = true) ∧
      (set_phone s).1 = p ++ suf := by
  obtain ⟨p, suf, hp, hsl, hsd, heq⟩ := set_phone_spec s
  obtain ⟨h1, h2, h3⟩ := phone_prefixes_facts p hp
  refine ⟨?_, ?_, p, suf, hp, h1, h2, hsl, hsd, heq⟩
  · rw [heq]
    simp only [List.length_append, hsl]
    omega
  · intro c hc
    rw [heq] at hc
    rcases List.mem_append.mp hc with h | h
    · exact h3 c h
    · exact hsd c h

/-! ### The claims -/

/-- Claim C1: for every generated person, the CPR is a 10-character
numeric string composed as `dd + mm + yy + middleDigits + finalDigit`,
where `dd`, `mm`, `yy` are the birth date's day, month and 2-digit year,
each zero-padded to two digits, followed by three random digits and one
final digit. -/
theorem claim_C1 (env : Env) (s : RState) :
    ∃ y m d mid fd,
      parseYMD ((mkFakeInfo env s).1.birth_date) = (y, m, d) ∧
      mid.length = 3 ∧ (∀ c ∈ mid, c.isDigit = true) ∧ fd < 10 ∧
      (mkFakeInfo env s).1.cpr =
        pad2 d ++ pad2 m ++ pad2 (y % 100) ++ mid ++ [digitChar fd] ∧
      (mkFakeInfo env s).1.cpr.length = 10 ∧
      (∀ c ∈ (mkFakeInfo env s).1.cpr, c.isDigit = true) :=
  cpr_shape (bdOf env s) (genderOf env s) (stateAfterBD env s)

/-- Witness for claim C1 at a concrete environment and stream. -/
theorem claim_C1_witness :
    ∃ y m d mid fd,
      parseYMD ((mkFakeInfo env0 s0).1.birth_date) = (y, m, d) ∧
      mid.length = 3 ∧ (∀ c ∈ mid, c.isDigit = true) ∧ fd < 10 ∧
      (mkFakeInfo env0 s0).1.cpr =
        pad2 d ++ pad2 m ++ pad2 (y % 100) ++ mid ++ [digitChar fd] ∧
      (mkFakeInfo env0 s0).1.cpr.length = 10 ∧
      (∀ c ∈ (mkFakeInfo env0 s0).1.cpr, c.isDigit = true) :=
  claim_C1 env0 s0

/-- Claim C2: the last CPR digit is even for a feminine record and odd
for a masculine record; the parity adjustment always increments by one
modulo ten and never decrements, so a drawn 9 adjusted for a feminine
record becomes 0. -/
theorem claim_C2 (env : Env) (s : RState) :
    (∃ fd, fd < 10 ∧
      (mkFakeInfo env s).1.cpr.getLast? = some (digitChar fd) ∧
      digitVal (digitChar fd) = fd ∧
      ((mkFakeInfo env s).1.gender = GENDER_FEMININE → fd % 2 = 0) ∧
      ((mkFakeInfo env s).1.gender = GENDER_MASCULINE → fd % 2 = 1)) ∧
    (∀ g d, adjustFinal g d = d ∨ adjustFinal g d = (d + 1) % 10) ∧
    adjustFinal GENDER_FEMININE 9 = 0 :=
  ⟨cpr_last (bdOf env s) (genderOf env s) (stateAfterBD env s),
   adjustFinal_cases, by decide⟩

/-- Witness for claim C2 at a concrete environment and stream. -/
theorem claim_C2_witness :
    (∃ fd, fd < 10 ∧
      (mkFakeInfo env0 s0).1.cpr.getLast? = some (digitChar fd) ∧
      digitVal (digitChar fd) = fd ∧
      ((mkFakeInfo env0 s0).1.gender = GENDER_FEMININE → fd % 2 = 0) ∧
      ((mkFakeInfo env0 s0).1.gender = GENDER_MASCULINE → fd % 2 = 1)) ∧
    (∀ g d, adjustFinal g d = d ∨ adjustFinal g d = (d + 1) % 10) ∧
    adjustFinal GENDER_FEMININE 9 = 0 :=
  claim_C2 env0 s0

/-- Claim C3: every generated birth date has year in
`[1900, currentYear]`, month in `[1, 12]` and day in
`[1, days_for month]`, where `days_for` gives 31 for
`{1,3,5,7,8,10,12}`, 30 for `{4,6,9,11}` and 28 for February
unconditionally (no day 29 even in leap years), and the date is
rendered `YYYY-MM-DD` with zero-padded month and day. -/
theorem claim_C3 (env : Env) (s : RState) (h : 1900 ≤ env.currentYear) :
    ∃ y m d,
      1900 ≤ y ∧ y ≤ env.currentYear ∧ 1 ≤ m ∧ m ≤ 12 ∧
      1 ≤ d ∧ d ≤ days_for m ∧
      (m ∈ ([1, 3, 5, 7, 8, 10, 12] : List Nat) → days_for m = 31) ∧
      (m ∈ ([4, 6, 9, 11] : List Nat) → days_for m = 30) ∧
      (m = 2 → days_for m = 28 ∧ d ≤ 28) ∧
      (mkFakeInfo env s).1.birth_date =
        pad4 y ++ '-' :: (pad2 m ++ '-' :: pad2 d) := by
  obtain ⟨y, m, d, h1, h2, h3, h4, h5, h6, heq⟩ :=
    set_birth_date_spec env.currentYear (stateAfterName env s) h
  refine ⟨y, m, d, h1, h2, h3, h4, h5, h6, ?_, ?_, ?_, heq⟩
  · intro hm
    fin_cases hm <;> rfl
  · intro hm
    fin_cases hm <;> rfl
  · intro hm
    subst hm
    exact ⟨rfl, h6⟩

/-- Witness for claim C3 at a concrete environment and stream. -/
theorem claim_C3_witness :
    ∃ y m d,
      1900 ≤ y ∧ y ≤ env0.currentYear ∧ 1 ≤ m ∧ m ≤ 12 ∧
      1 ≤ d ∧ d ≤ days_for m ∧
      (m ∈ ([1, 3, 5, 7, 8, 10, 12] : List Nat) → days_for m = 31) ∧
      (m ∈ ([4, 6, 9, 11] : List Nat) → days_for m = 30) ∧
      (m = 2 → days_for m = 28 ∧ d ≤ 28) ∧
      (mkFakeInfo env0 s0).1.birth_date =
        pad4 y ++ '-' :: (pad2 m ++ '-' :: pad2 d) :=
  claim_C3 env0 s0 (by decide)

/-- Claim C4: `get_fake_persons n` returns exactly `clamp n` records,
where `clamp n` is 2 for `n < 2`, 100 for `n > 100` and `n` otherwise;
in particular 0, 1, 2 give 2 records, 100 gives 100, 101 gives 100, and
the function is total over all integer inputs. -/
theorem claim_C4 (env : Env) (n : Int) (s : RState) :
    (get_fake_persons env n s).1.length =
      (if n < 2 then 2 else if n > 100 then 100 else n.toNat) ∧
    (get_fake_persons env 0 s).1.length = 2 ∧
    (get_fake_persons env 1 s).1.length = 2 ∧
    (get_fake_persons env 2 s).1.length = 2 ∧
    (get_fake_persons env 100 s).1.length = 100 ∧
    (get_fake_persons env 101 s).1.length = 100 := by
  have key : ∀ m : Int, (get_fake_persons env m s).1.length =
      (if m < 2 then 2 else if m > 100 then 100 else m.toNat) := by
    intro m
    show (genMany env
      (Int.toNat (if (if m < 2 then 2 else m) > 100 then 100
        else if m < 2 then 2 else m)) s).1.length = _
    rw [genMany_length]
    split_ifs <;> omega
  refine ⟨key n, ?_, ?_, ?_, ?_, ?_⟩ <;> rw [key] <;> decide

/-- Claim C5: every generated phone number is an 8-character numeric
string equal to one of the fixed locale prefixes (each 1-3 digits)
followed by `8 - len(prefix)` drawn digits. -/
theorem claim_C5 (env : Env) (s : RState) :
    (mkFakeInfo env s).1.phone_number.length = 8 ∧
    (∀ c ∈ (mkFakeInfo env s).1.phone_number, c.isDigit = true) ∧
    ∃ p suf,
      p ∈ PHONE_PREFIXES ∧ 1 ≤ p.length ∧ p.length ≤ 3 ∧
      suf.length = 8 - p.length ∧ (∀ c ∈ suf, c.isDigit = true) ∧
      (mkFakeInfo env s).1.phone_number = p ++ suf :=
  phone_shape (stateAfterAddr env s)

/-- Witness for claim C5 at a concrete environment and stream. -/
theorem claim_C5_witness :
    (mkFakeInfo env0 s0).1.phone_number.length = 8 ∧
    (∀ c ∈ (mkFakeInfo env0 s0).1.phone_number, c.isDigit = true) ∧
    ∃ p suf,
      p ∈ PHONE_PREFIXES ∧ 1 ≤ p.length ∧ p.length ≤ 3 ∧
      suf.length = 8 - p.length ∧ (∀ c ∈ suf, c.isDigit = true) ∧
      (mkFakeInfo env0 s0).1.phone_number = p ++ suf :=
  claim_C5 env0 s0

/-- Claim C6: every generated street is exactly 40 characters; its first
character is drawn from the letter alphabet (Latin plus Danish extended
letters) and is never a space, and each of the remaining 39 characters
is drawn from the full alphabet including the space. -/
theorem claim_C6 (env : Env) (s : RState) :
    ∃ c rest,
      (mkFakeInfo env s).1.address.street = c :: rest ∧
      (mkFakeInfo env s).1.address.street.length = 40 ∧
      c ∈ (valid_chars true).filter (fun x => x ≠ ' ') ∧ c ≠ ' ' ∧
      rest.length = 39 ∧ (∀ x ∈ rest, x ∈ valid_chars true) := by
  obtain ⟨c, rest, heq, hm, hsp, hlen, hall⟩ :=
    set_address_street env.towns (stateAfterCpr env s)
  have heq2 : (mkFakeInfo env s).1.address.street = c :: rest := heq
  refine ⟨c, rest, heq2, ?_, hm, hsp, hlen, hall⟩
  rw [heq2]
  simp [hlen]

/-- Witness for claim C6 at a concrete environment and stream. -/
theorem claim_C6_witness :
    ∃ c rest,
      (mkFakeInfo env0 s0).1.address.street = c :: rest ∧
      (mkFakeInfo env0 s0).1.address.street.length = 40 ∧
      c ∈ (valid_chars true).filter (fun x => x ≠ ' ') ∧ c ≠ ' ' ∧
      rest.length = 39 ∧ (∀ x ∈ rest, x ∈ valid_chars true) :=
  claim_C6 env0 s0

/-- Claim C7: the door field is determined by a `doorType` drawn from
`[1, 20]` and mapped by half-open bins: below 8 gives "th", 8-14 gives
"tv", 15-16 gives "mf", 17-18 gives the decimal string of an integer in
`[1, 50]`, and 19-20 gives a lowercase letter from the 29-letter
extended alphabet, a literal dash exactly when `doorType = 20`, and the
decimal string of an integer in `[1, 999]`. -/
theorem claim_C7 (dt : Nat) (s : RState) :
    (dt < 8 → (mkDoor dt s).1 = ['t', 'h']) ∧
    (8 ≤ dt → dt < 15 → (mkDoor dt s).1 = ['t', 'v']) ∧
    (15 ≤ dt → dt < 17 → (mkDoor dt s).1 = ['m', 'f']) ∧
    (17 ≤ dt → dt < 19 →
      ∃ k, 1 ≤ k ∧ k ≤ 50 ∧ (mkDoor dt s).1 = natStr k) ∧
    (19 ≤ dt →
      ∃ c k, c ∈ LOWER_LETTERS ∧ 1 ≤ k ∧ k ≤ 999 ∧
        (mkDoor dt s).1 =
          c :: ((if dt = 20 then ['-'] else []) ++ natStr k)) ∧
    LOWER_LETTERS.length = 29 ∧
    (∀ env s2, ∃ dt2 s3, 1 ≤ dt2 ∧ dt2 ≤ 20 ∧
      (mkFakeInfo env s2).1.address.door = (mkDoor dt2 s3).1) := by
  refine ⟨mkDoor_th dt s, mkDoor_tv dt s, mkDoor_mf dt s, mkDoor_num dt s,
    mkDoor_letter dt s, rfl, ?_⟩
  intro env s2
  exact set_address_door env.towns (stateAfterCpr env s2)

/-- Witness for claim C7 at a concrete door type and stream. -/
theorem claim_C7_witness : (mkDoor 3 s0).1 = ['t', 'h'] :=
  (claim_C7 3 s0).1 (by decide)

/-- Claim C8: with the town lookup stubbed to a fixed
postal-code/town pair, two generations fed identical sequences of raw
random draws produce identical person records — generation is a
deterministic function of the drawn values and collaborator outputs. -/
theorem claim_C8 (persons : List NameRecord) (year : Nat)
    (f g : Nat → Nat) (i : Nat) (h : ∀ n, f n = g n) :
    (mkFakeInfo (Env.mk persons STUB_TOWNS year) (RState.mk f i)).1 =
      (mkFakeInfo (Env.mk persons STUB_TOWNS year) (RState.mk g i)).1 ∧
    get_fake_person
        (mkFakeInfo (Env.mk persons STUB_TOWNS year) (RState.mk f i)).1 =
      get_fake_person
        (mkFakeInfo (Env.mk persons STUB_TOWNS year) (RState.mk g i)).1 := by
  have hfg : f = g := funext h
  subst hfg
  exact ⟨rfl, rfl⟩

/-- Witness for claim C8 at a concrete corpus, year and stream. -/
theorem claim_C8_witness :
    (mkFakeInfo (Env.mk [] STUB_TOWNS 2026)
        (RState.mk (fun _ => 0) 0)).1 =
      (mkFakeInfo (Env.mk [] STUB_TOWNS 2026)
        (RState.mk (fun _ => 0) 0)).1 ∧
    get_fake_person
        (mkFakeInfo (Env.mk [] STUB_TOWNS 2026)
          (RState.mk (fun _ => 0) 0)).1 =
      get_fake_person
        (mkFakeInfo (Env.mk [] STUB_TOWNS 2026)
          (RState.mk (fun _ => 0) 0)).1 :=
  claim_C8 [] 2026 (fun _ => 0) (fun _ => 0) 0 (fun _ => rfl)

/-- Claim C9: when the corpus gender is neither "female" nor "male" the
drawn final CPR digit is left unadjusted, so the last-digit parity is
unconstrained — concretely, with a corpus gender "other" one draw stream
ends the CPR in the even digit 0 and another in the odd digit 9; the
parity invariant holds only under the precondition that the gender is
exactly one of the two strings. -/
theorem claim_C9 :
    (∀ g d, g ≠ GENDER_FEMININE → g ≠ GENDER_MASCULINE →
      adjustFinal g d = d) ∧
    (mkFakeInfo envOther s0).1.gender = ['o', 't', 'h', 'e', 'r'] ∧
    (mkFakeInfo envOther sNine).1.gender = ['o', 't', 'h', 'e', 'r'] ∧
    (mkFakeInfo envOther s0).1.cpr.getLast? = some '0' ∧
    (mkFakeInfo envOther sNine).1.cpr.getLast? = some '9' := by
  refine ⟨adjustFinal_other, ?_, ?_, ?_, ?_⟩ <;> decide

/-- Witness for claim C9: the unadjusted-digit fact at a concrete gender
string and digit. -/
theorem claim_C9_witness : adjustFinal ['o', 't', 'h', 'e', 'r'] 5 = 5 :=
  claim_C9.1 ['o', 't', 'h', 'e', 'r'] 5 (by decide) (by decide)

/-- Claim C10: the returned person mapping always has exactly the seven
keys CPR, firstName, lastName, gender, birthDate, address, phoneNumber,
and the address sub-mapping always has exactly the six keys street,
number, floor, door, postal_code, town_name, independent of every
random branch. -/
theorem claim_C10 (env : Env) (s : RState) :
    (get_fake_person (mkFakeInfo env s).1).map Prod.fst =
      ["CPR", "firstName", "lastName", "gender", "birthDate", "address",
       "phoneNumber"] ∧
    (get_fake_person (mkFakeInfo env s).1).lookup "address" =
      some (Value.obj (addressPairs (mkFakeInfo env s).1.address)) ∧
    (addressPairs (mkFakeInfo env s).1.address).map Prod.fst =
      ["street", "number", "floor", "door", "postal_code", "town_name"] :=
  ⟨rfl, rfl, rfl⟩

/-- Witness for claim C10 at a concrete environment and stream. -/
theorem claim_C10_witness :
    (get_fake_person (mkFakeInfo env0 s0).1).map Prod.fst =
      ["CPR", "firstName", "lastName", "gender", "birthDate", "address",
       "phoneNumber"] ∧
    (get_fake_person (mkFakeInfo env0 s0).1).lookup "address" =
      some (Value.obj (addressPairs (mkFakeInfo env0 s0).1.address)) ∧
    (addressPairs (mkFakeInfo env0 s0).1.address).map Prod.fst =
      ["street", "number", "floor", "door", "postal_code", "town_name"] :=
  claim_C10 env0 s0

/-- Witness for claim C4 at a concrete environment, count and stream. -/
theorem claim_C4_witness :
    (get_fake_persons env0 0 s0).1.length = 2 :=
  (claim_C4 env0 0 s0).2.1

end FakeInfoModel
